import Mathlib

/-!
Verification of `reminder_sms.py` (strategic_reminders).

The script sends scheduled SMS reminders gated by date guardrails.
We embed its pure core (guardrail evaluation, message construction,
environment lookup, and the invocation flow of `main` plus the
`__main__` wrapper) as executable Lean definitions, together with the
parts of the Python standard library the script relies on
(`calendar.monthrange`, `datetime.date` ordinals / subtraction /
`isoformat`, `str.title`, `str.join`).
-/

/-- A calendar date as carried by Python's `datetime.date`:
year, month (1-12), day (1-based). -/
structure PyDate where
  year : Nat
  month : Nat
  day : Nat
deriving DecidableEq, Repr

/-- Python `calendar.isleap(year)`:
`year % 4 == 0 and (year % 100 != 0 or year % 400 == 0)`. -/
def isleap (year : Nat) : Bool :=
  year % 4 == 0 && (year % 100 != 0 || year % 400 == 0)

/-- Python `calendar.mdays`: day counts per month index (index 0 unused). -/
def mdays : List Nat := [0, 31, 28, 31, 30, 31, 30, 31, 31, 30, 31, 30, 31]

/-- The day count returned by Python `calendar.monthrange(year, month)[1]`:
`mdays[month] + (month == 2 and isleap(year))`. -/
def monthrange (year month : Nat) : Nat :=
  mdays.getD month 0 + (if month == 2 && isleap year then 1 else 0)

/-- Days in the years before `year` (CPython `datetime._days_before_year`):
`y*365 + y//4 - y//100 + y//400` with `y = year - 1`. -/
def days_before_year (year : Nat) : Nat :=
  let y := year - 1
  y * 365 + y / 4 - y / 100 + y / 400

/-- Days in `year` before the first of `month`
(CPython `datetime._days_before_month`, expressed as the running sum of
month lengths). -/
def days_before_month (year : Nat) : Nat → Nat
  | 0 => 0
  | 1 => 0
  | m + 1 => days_before_month year m + monthrange year m

/-- CPython `date.toordinal()`: proleptic Gregorian ordinal, day 1 is
0001-01-01. -/
def toOrdinal (d : PyDate) : Nat :=
  days_before_year d.year + days_before_month d.year d.month + d.day

/-- Python date subtraction `(a - b).days`: difference of ordinals. -/
def dateSub (a b : PyDate) : Int :=
  (toOrdinal a : Int) - (toOrdinal b : Int)

/-- CPython `str(n)` for a natural number padded with leading zeros to
`width` digits (`%0*d`), as used by `date.isoformat`. -/
def padZero (width n : Nat) : String :=
  let s := toString n
  String.mk (List.replicate (width - s.length) '0') ++ s

/-- CPython `date.isoformat()`: `"%04d-%02d-%02d" % (year, month, day)`. -/
def isoformat (d : PyDate) : String :=
  padZero 4 d.year ++ "-" ++ padZero 2 d.month ++ "-" ++ padZero 2 d.day

/-- One step of Python `str.title()` over the character list: an alphabetic
character is uppercased when the previous character was not alphabetic and
lowercased otherwise. -/
def pyTitleGo : Bool → List Char → List Char
  | _, [] => []
  | prevAlpha, c :: cs =>
    if c.isAlpha then
      (if prevAlpha then c.toLower else c.toUpper) :: pyTitleGo true cs
    else
      c :: pyTitleGo false cs

/-- Python `str.title()` (ASCII fragment, which covers the mode names). -/
def pyTitle (s : String) : String :=
  String.mk (pyTitleGo false s.data)

/-- Python `sep.join(lines)`. -/
def pyJoin (sep : String) : List String → String
  | [] => ""
  | [a] => a
  | a :: b :: rest => a ++ sep ++ pyJoin sep (b :: rest)

/-- `build_message(mode, today, excel_url)` from `reminder_sms.py`:
header line, mode-specific body lines, dashboard line, joined with
newlines. -/
def build_message (mode : String) (today : PyDate) (excel_url : String) : String :=
  let lines := ["📅 Strategic Reminder (" ++ pyTitle mode ++ ") — " ++ isoformat today]
  let lines :=
    if mode == "weekly" then
      lines ++ ["✅ Review progress and update key actions.",
                "🔍 Check overdue & upcoming tasks."]
    else if mode == "monthly" then
      lines ++ ["📊 Prepare monthly wrap-up and finalize metrics.",
                "📌 Ensure sustainability & margin reviews are complete."]
    else if mode == "quarterly" then
      lines ++ ["📈 Quarterly review — assess goals vs outcomes.",
                "🚀 Plan adjustments for next quarter."]
    else
      lines
  let lines := lines ++ ["🔗 Dashboard: " ++ excel_url]
  pyJoin "\n" lines

/-- `is_two_days_before_month_end(today)` from `reminder_sms.py`:
`today.day == calendar.monthrange(today.year, today.month)[1] - 1`. -/
def is_two_days_before_month_end (today : PyDate) : Bool :=
  let last_day := monthrange today.year today.month
  today.day == last_day - 1

/-- `is_one_week_before_quarter_end(today)` from `reminder_sms.py`:
`q_month = ((month - 1) // 3 + 1) * 3`, `q_end` is the last day of
`q_month`, result is `(q_end - today).days == 7`. -/
def is_one_week_before_quarter_end (today : PyDate) : Bool :=
  let q_month := ((today.month - 1) / 3 + 1) * 3
  let last_day := monthrange today.year q_month
  let q_end : PyDate := ⟨today.year, q_month, last_day⟩
  dateSub q_end today == 7

/-- The process environment: a partial map from variable names to values. -/
def EnvMap : Type := String → Option String

/-- `DEFAULT_DASHBOARD`: `os.environ.get("DASHBOARD_LINK", fallback)`. -/
def DEFAULT_DASHBOARD (env : EnvMap) : String :=
  (env "DASHBOARD_LINK").getD "https://tinyurl.com/wcpaz"

/-- `need_env(name)` from `reminder_sms.py`: returns the value of the
variable, or raises `RuntimeError("Missing environment variable: " + name)`
when the variable is unset or its value is falsy (the empty string). -/
def need_env (env : EnvMap) (name : String) : Except String String :=
  match env name with
  | none => Except.error ("Missing environment variable: " ++ name)
  | some v =>
    if v == "" then Except.error ("Missing environment variable: " ++ name)
    else Except.ok v

/-- The call handed to the external Twilio sender: recipient, origin
number, and message body. -/
structure SenderCall where
  to_phone : String
  from_phone : String
  body : String
deriving DecidableEq, Repr

/-- `send_sms(body)` from `reminder_sms.py`, up to the point where the
external Twilio client is invoked: the four required environment variables
are read in order, and the first missing one aborts with the
`RuntimeError` from `need_env`; otherwise the sender is invoked with the
recipient, origin number and body. -/
def send_sms (env : EnvMap) (body : String) : Except String SenderCall :=
  match need_env env "TWILIO_ACCOUNT_SID" with
  | Except.error e => Except.error e
  | Except.ok _sid =>
    match need_env env "TWILIO_AUTH_TOKEN" with
    | Except.error e => Except.error e
    | Except.ok _token =>
      match need_env env "TWILIO_FROM" with
      | Except.error e => Except.error e
      | Except.ok from_phone =>
        match need_env env "TO_PHONE" with
        | Except.error e => Except.error e
        | Except.ok to_phone => Except.ok ⟨to_phone, from_phone, body⟩

/-- Observable outcome of one invocation of the script, as decided by
`main` together with the `__main__` wrapper:
* `skipped notice`: a guardrail rejected; `notice` is printed to stdout,
  `main` returns, the process exits 0 and the sender is never invoked;
* `invoked call`: both guardrails passed and all configuration was
  present; the external sender is invoked with `call` (its success or
  failure is outside the embedded core);
* `configError msg`: `need_env` raised before the sender was invoked;
  the `__main__` handler prints `"ERROR: " ++ msg` to stderr and the
  process exits 1. -/
inductive Outcome where
  | skipped (notice : String)
  | invoked (call : SenderCall)
  | configError (msg : String)
deriving DecidableEq, Repr

/-- `main()` from `reminder_sms.py`, for a parsed mode and an effective
date: the two guardrail checks, then message construction and
`send_sms`. -/
def runMain (env : EnvMap) (mode : String) (today : PyDate) : Outcome :=
  if mode == "monthly" && !(is_two_days_before_month_end today) then
    Outcome.skipped "Not 2 days before month-end; skipping."
  else if mode == "quarterly" && !(is_one_week_before_quarter_end today) then
    Outcome.skipped "Not 1 week before quarter-end; skipping."
  else
    match send_sms env (build_message mode today (DEFAULT_DASHBOARD env)) with
    | Except.error e => Outcome.configError e
    | Except.ok call => Outcome.invoked call

/-- Whether the outcome is a guardrail skip. -/
def isSkip : Outcome → Bool
  | Outcome.skipped _ => true
  | _ => false

/-- Whether the external sender was invoked. -/
def senderInvoked : Outcome → Bool
  | Outcome.invoked _ => true
  | _ => false

/-- Process exit code determined by the core: 0 on a guardrail skip
(`main` returns normally), 1 on a configuration error (the `__main__`
handler calls `sys.exit(1)`); after the sender is invoked the exit code
depends on the external sender, hence `none`. -/
def exitCode : Outcome → Option Nat
  | Outcome.skipped _ => some 0
  | Outcome.invoked _ => none
  | Outcome.configError _ => some 1

/-- Text printed to stderr by the `__main__` handler, when determined by
the core: `"ERROR: " ++ msg` on a configuration error, nothing on a skip. -/
def stderrOut : Outcome → Option String
  | Outcome.configError e => some ("ERROR: " ++ e)
  | _ => none

/-! ### Spec-side definitions

These follow the specification's words, for comparison with the
definitions embedded from the source. -/

/-- Spec-side leap-year rule: the correct Gregorian rule (divisible by 4,
except century years not divisible by 400). -/
def isLeapYear_spec (year : Nat) : Bool :=
  (year % 4 == 0 && year % 100 != 0) || year % 400 == 0

/-- Spec-side "correct last calendar day of that month (including 28/29
for February)": the standard month-length table. -/
def lastDayOfMonth_spec (year month : Nat) : Nat :=
  match month with
  | 1 => 31
  | 2 => if isLeapYear_spec year then 29 else 28
  | 3 => 31
  | 4 => 30
  | 5 => 31
  | 6 => 30
  | 7 => 31
  | 8 => 31
  | 9 => 30
  | 10 => 31
  | 11 => 30
  | 12 => 31
  | _ => 0

/-- Spec-side quarter-end month `ceil(month/3)*3` (March, June,
September or December). -/
def quarterEndMonth_spec (month : Nat) : Nat :=
  ((month + 2) / 3) * 3

/-- The empty process environment: every variable is unset. -/
def envEmpty : EnvMap := fun _ => none

/-! ### Bridge lemmas -/

lemma isleap_eq_spec (y : Nat) : isleap y = isLeapYear_spec y := by
  unfold isleap isLeapYear_spec
  rw [Bool.eq_iff_iff]
  simp only [Bool.and_eq_true, Bool.or_eq_true, beq_iff_eq, bne_iff_ne]
  have h := Nat.mod_mod_of_dvd y (by decide : (4 : Nat) ∣ 400)
  omega

lemma monthrange_eq_spec (y m : Nat) (h1 : 1 ≤ m) (h2 : m ≤ 12) :
    monthrange y m = lastDayOfMonth_spec y m := by
  interval_cases m
  · rfl
  · cases h : isLeapYear_spec y <;>
      simp [monthrange, mdays, lastDayOfMonth_spec, isleap_eq_spec, h]
  · rfl
  · rfl
  · rfl
  · rfl
  · rfl
  · rfl
  · rfl
  · rfl
  · rfl
  · rfl

lemma q_month_eq_spec (m : Nat) (h1 : 1 ≤ m) (h2 : m ≤ 12) :
    ((m - 1) / 3 + 1) * 3 = quarterEndMonth_spec m := by
  interval_cases m <;> rfl

lemma quarterEndMonth_bounds (m : Nat) (h1 : 1 ≤ m) (h2 : m ≤ 12) :
    1 ≤ quarterEndMonth_spec m ∧ quarterEndMonth_spec m ≤ 12 := by
  interval_cases m <;> exact ⟨by decide, by decide⟩

/-! ### Claims -/

/-- C1 (counterexample): the spec's leap-year examples fail on the code.
`is_two_days_before_month_end` checks `day == last_day - 1`, so it is
false at 2024-02-27 (claimed true), false at 2023-02-26 (claimed true)
and true at 2023-02-27 (claimed false). -/
theorem month_end_guard_leap_examples_refuted :
    is_two_days_before_month_end ⟨2024, 2, 27⟩ = false ∧
    is_two_days_before_month_end ⟨2023, 2, 26⟩ = false ∧
    is_two_days_before_month_end ⟨2023, 2, 27⟩ = true := by
  decide

/-- C1 (amended): the monthly guardrail triggers on the penultimate day
of the month: it returns true for 2024-02-28 and false for 2024-02-27
(February 2024 has 29 days), and returns true for 2023-02-27 and false
for 2023-02-26 (February 2023 has 28 days). -/
theorem month_end_guard_leap_examples_actual :
    is_two_days_before_month_end ⟨2024, 2, 28⟩ = true ∧
    is_two_days_before_month_end ⟨2024, 2, 27⟩ = false ∧
    is_two_days_before_month_end ⟨2023, 2, 27⟩ = true ∧
    is_two_days_before_month_end ⟨2023, 2, 26⟩ = false := by
  decide

/-- C2: for every valid calendar date, `is_two_days_before_month_end` is
true iff the day equals the correct last day of the month minus one
(leap years included), hence false on every other day of the month; in
particular, in April of any year day 29 is true and days 28 and 30 are
false. -/
theorem month_end_guard_iff_last_day_minus_one :
    (∀ y m d : Nat, 1 ≤ m → m ≤ 12 → 1 ≤ d → d ≤ lastDayOfMonth_spec y m →
      (is_two_days_before_month_end ⟨y, m, d⟩ = true ↔
        d = lastDayOfMonth_spec y m - 1)) ∧
    (∀ yr : Nat, is_two_days_before_month_end ⟨yr, 4, 29⟩ = true) ∧
    (∀ yr : Nat, is_two_days_before_month_end ⟨yr, 4, 28⟩ = false) ∧
    (∀ yr : Nat, is_two_days_before_month_end ⟨yr, 4, 30⟩ = false) := by
  refine ⟨?_, fun yr => rfl, fun yr => rfl, fun yr => rfl⟩
  intro y m d hm1 hm2 hd1 hd2
  simp [is_two_days_before_month_end, monthrange_eq_spec y m hm1 hm2]

/-- C2 witness at 2024-04-29. -/
theorem month_end_guard_iff_witness :
    is_two_days_before_month_end ⟨2024, 4, 29⟩ = true ↔
      29 = lastDayOfMonth_spec 2024 4 - 1 :=
  month_end_guard_iff_last_day_minus_one.1 2024 4 29 (by decide) (by decide)
    (by decide) (by decide)

/-- C3: for every valid calendar date, `is_one_week_before_quarter_end`
is true iff the whole-day difference between the last day of the date's
quarter (quarter-end month `ceil(month/3)*3`, same year) and the date is
exactly 7; in particular 2024-03-24 is true while 2024-03-23 and
2024-03-25 are false. -/
theorem quarter_end_guard_iff_seven_days :
    (∀ y m d : Nat, 1 ≤ m → m ≤ 12 → 1 ≤ d → d ≤ lastDayOfMonth_spec y m →
      (is_one_week_before_quarter_end ⟨y, m, d⟩ = true ↔
        dateSub ⟨y, quarterEndMonth_spec m,
                 lastDayOfMonth_spec y (quarterEndMonth_spec m)⟩ ⟨y, m, d⟩ = 7)) ∧
    is_one_week_before_quarter_end ⟨2024, 3, 24⟩ = true ∧
    is_one_week_before_quarter_end ⟨2024, 3, 23⟩ = false ∧
    is_one_week_before_quarter_end ⟨2024, 3, 25⟩ = false := by
  refine ⟨?_, by decide, by decide, by decide⟩
  intro y m d hm1 hm2 hd1 hd2
  have hb := quarterEndMonth_bounds m hm1 hm2
  simp only [is_one_week_before_quarter_end]
  rw [q_month_eq_spec m hm1 hm2, monthrange_eq_spec y _ hb.1 hb.2]
  exact beq_iff_eq

/-- C3 witness at 2024-03-24. -/
theorem quarter_end_guard_iff_witness :
    is_one_week_before_quarter_end ⟨2024, 3, 24⟩ = true ↔
      dateSub ⟨2024, quarterEndMonth_spec 3,
               lastDayOfMonth_spec 2024 (quarterEndMonth_spec 3)⟩ ⟨2024, 3, 24⟩ = 7 :=
  quarter_end_guard_iff_seven_days.1 2024 3 24 (by decide) (by decide)
    (by decide) (by decide)

/-- C4: when the guardrail rejects (quarterly mode on a date not exactly
7 days before quarter end, or monthly mode on a date other than
last-day-minus-one), `main` prints the skip notice and returns: the
sender is never invoked and the process exits 0. -/
theorem guard_reject_skips_and_exits_zero (env : EnvMap) (d : PyDate) :
    (is_one_week_before_quarter_end d = false →
      runMain env "quarterly" d =
        Outcome.skipped "Not 1 week before quarter-end; skipping." ∧
      senderInvoked (runMain env "quarterly" d) = false ∧
      exitCode (runMain env "quarterly" d) = some 0) ∧
    (is_two_days_before_month_end d = false →
      runMain env "monthly" d =
        Outcome.skipped "Not 2 days before month-end; skipping." ∧
      senderInvoked (runMain env "monthly" d) = false ∧
      exitCode (runMain env "monthly" d) = some 0) := by
  constructor
  · intro h
    have hr : runMain env "quarterly" d =
        Outcome.skipped "Not 1 week before quarter-end; skipping." := by
      simp [runMain, h]
    exact ⟨hr, by rw [hr]; rfl, by rw [hr]; rfl⟩
  · intro h
    have hr : runMain env "monthly" d =
        Outcome.skipped "Not 2 days before month-end; skipping." := by
      simp [runMain, h]
    exact ⟨hr, by rw [hr]; rfl, by rw [hr]; rfl⟩

/-- C4 witness: quarterly mode with simulated date 2024-06-22. -/
theorem guard_reject_witness :
    runMain envEmpty "quarterly" ⟨2024, 6, 22⟩ =
      Outcome.skipped "Not 1 week before quarter-end; skipping." ∧
    senderInvoked (runMain envEmpty "quarterly" ⟨2024, 6, 22⟩) = false ∧
    exitCode (runMain envEmpty "quarterly" ⟨2024, 6, 22⟩) = some 0 :=
  (guard_reject_skips_and_exits_zero envEmpty ⟨2024, 6, 22⟩).1 (by decide)

/-- C6: in weekly mode no date guardrail applies: for every environment
and every date, the invocation is never rejected with a skip. -/
theorem weekly_never_skipped (env : EnvMap) (d : PyDate) :
    isSkip (runMain env "weekly" d) = false := by
  simp only [runMain]
  have h1 : (("weekly" : String) == "monthly") = false := by decide
  have h2 : (("weekly" : String) == "quarterly") = false := by decide
  simp only [h1, h2, Bool.false_and, if_false]
  cases hs : send_sms env (build_message "weekly" d (DEFAULT_DASHBOARD env)) <;>
    simp [hs, isSkip]

lemma need_env_error_of_absent (env : EnvMap) (n : String)
    (h : env n = none ∨ env n = some "") :
    need_env env n = Except.error ("Missing environment variable: " ++ n) := by
  rcases h with h | h <;> simp [need_env, h]

lemma need_env_ok_of_present (env : EnvMap) (n v : String)
    (hv : env n = some v) (hne : v ≠ "") :
    need_env env n = Except.ok v := by
  simp [need_env, hv, hne]

lemma present_of_not_absent (env : EnvMap) (n : String)
    (h : ¬(env n = none ∨ env n = some "")) :
    ∃ v, env n = some v ∧ v ≠ "" := by
  push_neg at h
  obtain ⟨h1, h2⟩ := h
  cases hv : env n with
  | none => exact absurd hv h1
  | some v =>
    refine ⟨v, rfl, fun hv0 => ?_⟩
    rw [hv0] at hv
    exact h2 hv

lemma send_sms_error_of_absent (env : EnvMap) (body : String)
    (habs : (env "TWILIO_ACCOUNT_SID" = none ∨ env "TWILIO_ACCOUNT_SID" = some "") ∨
            (env "TWILIO_AUTH_TOKEN" = none ∨ env "TWILIO_AUTH_TOKEN" = some "") ∨
            (env "TWILIO_FROM" = none ∨ env "TWILIO_FROM" = some "") ∨
            (env "TO_PHONE" = none ∨ env "TO_PHONE" = some "")) :
    ∃ name : String,
      (env name = none ∨ env name = some "") ∧
      send_sms env body =
        Except.error ("Missing environment variable: " ++ name) := by
  by_cases h1 : env "TWILIO_ACCOUNT_SID" = none ∨ env "TWILIO_ACCOUNT_SID" = some ""
  · exact ⟨"TWILIO_ACCOUNT_SID", h1, by
      simp [send_sms, need_env_error_of_absent env _ h1]⟩
  · obtain ⟨v1, hv1, hne1⟩ := present_of_not_absent env _ h1
    by_cases h2 : env "TWILIO_AUTH_TOKEN" = none ∨ env "TWILIO_AUTH_TOKEN" = some ""
    · exact ⟨"TWILIO_AUTH_TOKEN", h2, by
        simp [send_sms, need_env_ok_of_present env _ v1 hv1 hne1,
              need_env_error_of_absent env _ h2]⟩
    · obtain ⟨v2, hv2, hne2⟩ := present_of_not_absent env _ h2
      by_cases h3 : env "TWILIO_FROM" = none ∨ env "TWILIO_FROM" = some ""
      · exact ⟨"TWILIO_FROM", h3, by
          simp [send_sms, need_env_ok_of_present env _ v1 hv1 hne1,
                need_env_ok_of_present env _ v2 hv2 hne2,
                need_env_error_of_absent env _ h3]⟩
      · obtain ⟨v3, hv3, hne3⟩ := present_of_not_absent env _ h3
        by_cases h4 : env "TO_PHONE" = none ∨ env "TO_PHONE" = some ""
        · exact ⟨"TO_PHONE", h4, by
            simp [send_sms, need_env_ok_of_present env _ v1 hv1 hne1,
                  need_env_ok_of_present env _ v2 hv2 hne2,
                  need_env_ok_of_present env _ v3 hv3 hne3,
                  need_env_error_of_absent env _ h4]⟩
        · rcases habs with h | h | h | h
          · exact absurd h h1
          · exact absurd h h2
          · exact absurd h h3
          · exact absurd h h4

/-- C5: if the guardrail permits sending and any of the four required
environment variables is unset (or empty), the run ends in a
configuration error naming a missing variable: the sender is never
invoked, the process exits 1, and `"ERROR: ..."` goes to stderr. -/
theorem missing_env_config_error (env : EnvMap) (mode : String) (d : PyDate)
    (hm : (mode == "monthly" && !(is_two_days_before_month_end d)) = false)
    (hq : (mode == "quarterly" && !(is_one_week_before_quarter_end d)) = false)
    (habs : (env "TWILIO_ACCOUNT_SID" = none ∨ env "TWILIO_ACCOUNT_SID" = some "") ∨
            (env "TWILIO_AUTH_TOKEN" = none ∨ env "TWILIO_AUTH_TOKEN" = some "") ∨
            (env "TWILIO_FROM" = none ∨ env "TWILIO_FROM" = some "") ∨
            (env "TO_PHONE" = none ∨ env "TO_PHONE" = some "")) :
    ∃ name : String,
      (env name = none ∨ env name = some "") ∧
      runMain env mode d =
        Outcome.configError ("Missing environment variable: " ++ name) ∧
      senderInvoked (runMain env mode d) = false ∧
      exitCode (runMain env mode d) = some 1 ∧
      stderrOut (runMain env mode d) =
        some ("ERROR: " ++ ("Missing environment variable: " ++ name)) := by
  obtain ⟨name, hab, hsend⟩ :=
    send_sms_error_of_absent env (build_message mode d (DEFAULT_DASHBOARD env)) habs
  have hr : runMain env mode d =
      Outcome.configError ("Missing environment variable: " ++ name) := by
    simp [runMain, hm, hq, hsend]
  exact ⟨name, hab, hr, by rw [hr]; rfl, by rw [hr]; rfl, by rw [hr]; rfl⟩

/-- C5 witness: quarterly mode at 2024-06-23 (guardrail passes) with an
empty environment. -/
theorem missing_env_config_error_witness :
    ∃ name : String,
      (envEmpty name = none ∨ envEmpty name = some "") ∧
      runMain envEmpty "quarterly" ⟨2024, 6, 23⟩ =
        Outcome.configError ("Missing environment variable: " ++ name) ∧
      senderInvoked (runMain envEmpty "quarterly" ⟨2024, 6, 23⟩) = false ∧
      exitCode (runMain envEmpty "quarterly" ⟨2024, 6, 23⟩) = some 1 ∧
      stderrOut (runMain envEmpty "quarterly" ⟨2024, 6, 23⟩) =
        some ("ERROR: " ++ ("Missing environment variable: " ++ name)) :=
  missing_env_config_error envEmpty "quarterly" ⟨2024, 6, 23⟩ (by decide) (by decide)
    (Or.inl (Or.inl rfl))

/-- C10: `need_env` fails with the missing-variable error exactly when
the variable is unset or set to the empty string; an empty value is
treated the same as an absent one. -/
theorem need_env_error_iff_absent_or_empty (env : EnvMap) (n : String) :
    need_env env n = Except.error ("Missing environment variable: " ++ n) ↔
      (env n = none ∨ env n = some "") := by
  constructor
  · intro h
    by_cases h0 : env n = none ∨ env n = some ""
    · exact h0
    · obtain ⟨v, hv, hne⟩ := present_of_not_absent env n h0
      rw [need_env_ok_of_present env n v hv hne] at h
      exact absurd h (by simp)
  · exact need_env_error_of_absent env n

/-- C10 witness: a variable set to the empty string is rejected. -/
theorem need_env_empty_value_witness :
    need_env (fun _ => some "") "TWILIO_FROM" =
      Except.error ("Missing environment variable: " ++ "TWILIO_FROM") :=
  (need_env_error_iff_absent_or_empty (fun _ => some "") "TWILIO_FROM").mpr
    (Or.inr rfl)

/-- C7: `build_message` is deterministic, and for each of the three modes
its output is exactly four newline-joined lines in fixed order: the
header, the two fixed mode-specific body lines, and the dashboard line. -/
theorem build_message_four_lines :
    (∀ (mode : String) (d : PyDate) (ref : String),
      build_message mode d ref = build_message mode d ref) ∧
    (∀ (d : PyDate) (ref : String),
      build_message "weekly" d ref =
        "📅 Strategic Reminder (" ++ "Weekly" ++ ") — " ++ isoformat d ++ "\n" ++
        "✅ Review progress and update key actions." ++ "\n" ++
        "🔍 Check overdue & upcoming tasks." ++ "\n" ++
        ("🔗 Dashboard: " ++ ref)) ∧
    (∀ (d : PyDate) (ref : String),
      build_message "monthly" d ref =
        "📅 Strategic Reminder (" ++ "Monthly" ++ ") — " ++ isoformat d ++ "\n" ++
        "📊 Prepare monthly wrap-up and finalize metrics." ++ "\n" ++
        "📌 Ensure sustainability & margin reviews are complete." ++ "\n" ++
        ("🔗 Dashboard: " ++ ref)) ∧
    (∀ (d : PyDate) (ref : String),
      build_message "quarterly" d ref =
        "📅 Strategic Reminder (" ++ "Quarterly" ++ ") — " ++ isoformat d ++ "\n" ++
        "📈 Quarterly review — assess goals vs outcomes." ++ "\n" ++
        "🚀 Plan adjustments for next quarter." ++ "\n" ++
        ("🔗 Dashboard: " ++ ref)) := by
  refine ⟨fun mode d ref => rfl, ?_, ?_, ?_⟩
  · intro d ref
    have ht : pyTitle "weekly" = "Weekly" := by decide
    have hstep : build_message "weekly" d ref =
        pyJoin "\n"
          ["📅 Strategic Reminder (" ++ pyTitle "weekly" ++ ") — " ++ isoformat d,
           "✅ Review progress and update key actions.",
           "🔍 Check overdue & upcoming tasks.",
           "🔗 Dashboard: " ++ ref] := rfl
    rw [hstep, ht]
    simp only [pyJoin, String.append_assoc]
  · intro d ref
    have ht : pyTitle "monthly" = "Monthly" := by decide
    have hstep : build_message "monthly" d ref =
        pyJoin "\n"
          ["📅 Strategic Reminder (" ++ pyTitle "monthly" ++ ") — " ++ isoformat d,
           "📊 Prepare monthly wrap-up and finalize metrics.",
           "📌 Ensure sustainability & margin reviews are complete.",
           "🔗 Dashboard: " ++ ref] := rfl
    rw [hstep, ht]
    simp only [pyJoin, String.append_assoc]
  · intro d ref
    have ht : pyTitle "quarterly" = "Quarterly" := by decide
    have hstep : build_message "quarterly" d ref =
        pyJoin "\n"
          ["📅 Strategic Reminder (" ++ pyTitle "quarterly" ++ ") — " ++ isoformat d,
           "📈 Quarterly review — assess goals vs outcomes.",
           "🚀 Plan adjustments for next quarter.",
           "🔗 Dashboard: " ++ ref] := rfl
    rw [hstep, ht]
    simp only [pyJoin, String.append_assoc]

/-- C8: for every mode and date, the first output line is the header:
the 📅 marker glyph, the mode name in title case ("Weekly", "Monthly",
"Quarterly"), an em-dash, and the ISO-8601 date. -/
theorem build_message_header_line :
    ∀ (d : PyDate) (ref : String),
      (∃ rest, build_message "weekly" d ref =
        "📅 Strategic Reminder (" ++ "Weekly" ++ ") — " ++ isoformat d ++ "\n" ++ rest) ∧
      (∃ rest, build_message "monthly" d ref =
        "📅 Strategic Reminder (" ++ "Monthly" ++ ") — " ++ isoformat d ++ "\n" ++ rest) ∧
      (∃ rest, build_message "quarterly" d ref =
        "📅 Strategic Reminder (" ++ "Quarterly" ++ ") — " ++ isoformat d ++ "\n" ++ rest) := by
  intro d ref
  refine ⟨⟨"✅ Review progress and update key actions." ++ "\n" ++
           "🔍 Check overdue & upcoming tasks." ++ "\n" ++
           ("🔗 Dashboard: " ++ ref), ?_⟩,
          ⟨"📊 Prepare monthly wrap-up and finalize metrics." ++ "\n" ++
           "📌 Ensure sustainability & margin reviews are complete." ++ "\n" ++
           ("🔗 Dashboard: " ++ ref), ?_⟩,
          ⟨"📈 Quarterly review — assess goals vs outcomes." ++ "\n" ++
           "🚀 Plan adjustments for next quarter." ++ "\n" ++
           ("🔗 Dashboard: " ++ ref), ?_⟩⟩
  · have ht : pyTitle "weekly" = "Weekly" := by decide
    have hstep : build_message "weekly" d ref =
        pyJoin "\n"
          ["📅 Strategic Reminder (" ++ pyTitle "weekly" ++ ") — " ++ isoformat d,
           "✅ Review progress and update key actions.",
           "🔍 Check overdue & upcoming tasks.",
           "🔗 Dashboard: " ++ ref] := rfl
    rw [hstep, ht]
    simp only [pyJoin, String.append_assoc]
  · have ht : pyTitle "monthly" = "Monthly" := by decide
    have hstep : build_message "monthly" d ref =
        pyJoin "\n"
          ["📅 Strategic Reminder (" ++ pyTitle "monthly" ++ ") — " ++ isoformat d,
           "📊 Prepare monthly wrap-up and finalize metrics.",
           "📌 Ensure sustainability & margin reviews are complete.",
           "🔗 Dashboard: " ++ ref] := rfl
    rw [hstep, ht]
    simp only [pyJoin, String.append_assoc]
  · have ht : pyTitle "quarterly" = "Quarterly" := by decide
    have hstep : build_message "quarterly" d ref =
        pyJoin "\n"
          ["📅 Strategic Reminder (" ++ pyTitle "quarterly" ++ ") — " ++ isoformat d,
           "📈 Quarterly review — assess goals vs outcomes.",
           "🚀 Plan adjustments for next quarter.",
           "🔗 Dashboard: " ++ ref] := rfl
    rw [hstep, ht]
    simp only [pyJoin, String.append_assoc]

/-- C9: with an empty dashboard reference, `build_message` still emits
the same four lines in the same order, and the final line is the 🔗
marker glyph, "Dashboard: ", and the empty reference passed through
unchanged. -/
theorem build_message_empty_dashboard :
    ∀ d : PyDate,
      (build_message "weekly" d "" =
        "📅 Strategic Reminder (" ++ "Weekly" ++ ") — " ++ isoformat d ++ "\n" ++
        "✅ Review progress and update key actions." ++ "\n" ++
        "🔍 Check overdue & upcoming tasks." ++ "\n" ++
        ("🔗 Dashboard: " ++ "")) ∧
      (build_message "monthly" d "" =
        "📅 Strategic Reminder (" ++ "Monthly" ++ ") — " ++ isoformat d ++ "\n" ++
        "📊 Prepare monthly wrap-up and finalize metrics." ++ "\n" ++
        "📌 Ensure sustainability & margin reviews are complete." ++ "\n" ++
        ("🔗 Dashboard: " ++ "")) ∧
      (build_message "quarterly" d "" =
        "📅 Strategic Reminder (" ++ "Quarterly" ++ ") — " ++ isoformat d ++ "\n" ++
        "📈 Quarterly review — assess goals vs outcomes." ++ "\n" ++
        "🚀 Plan adjustments for next quarter." ++ "\n" ++
        ("🔗 Dashboard: " ++ "")) := by
  intro d
  refine ⟨?_, ?_, ?_⟩
  · have ht : pyTitle "weekly" = "Weekly" := by decide
    have hstep : build_message "weekly" d "" =
        pyJoin "\n"
          ["📅 Strategic Reminder (" ++ pyTitle "weekly" ++ ") — " ++ isoformat d,
           "✅ Review progress and update key actions.",
           "🔍 Check overdue & upcoming tasks.",
           "🔗 Dashboard: " ++ ""] := rfl
    rw [hstep, ht]
    simp only [pyJoin, String.append_assoc]
  · have ht : pyTitle "monthly" = "Monthly" := by decide
    have hstep : build_message "monthly" d "" =
        pyJoin "\n"
          ["📅 Strategic Reminder (" ++ pyTitle "monthly" ++ ") — " ++ isoformat d,
           "📊 Prepare monthly wrap-up and finalize metrics.",
           "📌 Ensure sustainability & margin reviews are complete.",
           "🔗 Dashboard: " ++ ""] := rfl
    rw [hstep, ht]
    simp only [pyJoin, String.append_assoc]
  · have ht : pyTitle "quarterly" = "Quarterly" := by decide
    have hstep : build_message "quarterly" d "" =
        pyJoin "\n"
          ["📅 Strategic Reminder (" ++ pyTitle "quarterly" ++ ") — " ++ isoformat d,
           "📈 Quarterly review — assess goals vs outcomes.",
           "🚀 Plan adjustments for next quarter.",
           "🔗 Dashboard: " ++ ""] := rfl
    rw [hstep, ht]
    simp only [pyJoin, String.append_assoc]
